import Mathlib

/-!
Verification development for the browser-side proctoring engine and the
image-viewer hotspot hit test of this repository.

The definitions below are shallow embeddings of the JavaScript source:

* `Proctor.fullscreenChangeHandler`, `Proctor.visibilityHiddenHandler`,
  `Proctor.autoSubmitTestDisqualified`, `Proctor.restoreFullscreenWithRetry`,
  `Proctor.captureEventScreenshot`, `Proctor.handleCameraDisabled`,
  `Proctor.performSystemChecks`, `Proctor.cleanup` model the enhanced
  proctoring class (src/unnamed/part_003).
* `ProctoringJS.captureEventScreenshot` models the variant in
  src/static/js/proctoring.js, whose cooldown state is a single shared
  timestamp instead of a per-category map.
* `Viewer.checkHotspotHit` models the hotspot hit test shared by the three
  viewer implementations (src/unnamed/part_000, part_001, part_002).

Side effects (uploads, log posts, alerts, DOM mutations, navigation) are
made observable as explicit action lists; timers are modelled by an
explicit environment that allocates interval identifiers, mirroring that
the source sometimes discards the identifier returned by setInterval.
-/

namespace Proctor

/-- Severity levels used by the event log payloads. -/
inductive Severity where
  | info
  | warning
  | critical
deriving DecidableEq, Repr

/-- Observable side effects of the violation handlers. -/
inductive Action where
  | captureEventScreenshot (eventType : String) (sev : Severity)
  | logEvent (name : String) (sev : Severity)
  | alert
  | disablePointerEvents
  | dimBody
  | autoSubmit
  | restoreFullscreen
deriving DecidableEq, Repr

/-- Mutable fields of the enhanced proctoring class that the fullscreen and
visibility handlers read or write (src/unnamed/part_003, constructor). -/
structure ProctorState where
  warningCount : Nat
  maxWarnings : Nat
  fullscreenExitCount : Nat
  maxFullscreenExits : Nat
  fullscreenRetryAttempts : Nat
  isDisqualified : Bool
  windowHasFocus : Bool
deriving DecidableEq, Repr

/-- Constructor defaults: maxWarnings = 3, maxFullscreenExits = 3,
counters zero, isDisqualified false. -/
def initState : ProctorState :=
  { warningCount := 0
    maxWarnings := 3
    fullscreenExitCount := 0
    maxFullscreenExits := 3
    fullscreenRetryAttempts := 0
    isDisqualified := false
    windowHasFocus := true }

/-- Embedding of fullscreenChangeHandler (src/unnamed/part_003 lines
954-1018). The input is the vendor-neutral isFullscreen check; the handler
acts only when fullscreen was exited and the session is not already
disqualified. On reaching maxFullscreenExits it sets isDisqualified,
freezes pointer interaction and invokes the forced-submission sequence;
below the threshold it alerts and attempts fullscreen restoration. -/
def fullscreenChangeHandler (isFullscreen : Bool) (s : ProctorState) :
    ProctorState × List Action :=
  if !isFullscreen && !s.isDisqualified then
    let count := s.fullscreenExitCount + 1
    let sev := if count ≥ s.maxFullscreenExits then Severity.critical else Severity.warning
    let base := [Action.captureEventScreenshot "fullscreen_exit" sev,
                 Action.logEvent "fullscreen_exit" sev]
    if count ≥ s.maxFullscreenExits then
      ({ s with fullscreenExitCount := count, fullscreenRetryAttempts := 0,
                isDisqualified := true },
       base ++ [Action.alert, Action.disablePointerEvents, Action.dimBody,
                Action.autoSubmit])
    else
      ({ s with fullscreenExitCount := count, fullscreenRetryAttempts := 0 },
       base ++ [Action.alert, Action.restoreFullscreen])
  else
    (s, [])

/-- Embedding of the document visibilitychange handler, hidden branch
(src/unnamed/part_003 lines 884-906): increments warningCount, captures a
screenshot and logs with escalating severity, and alerts at the
threshold; it never touches isDisqualified. -/
def visibilityHiddenHandler (s : ProctorState) : ProctorState × List Action :=
  let count := s.warningCount + 1
  let sev := if count ≥ s.maxWarnings then Severity.critical else Severity.warning
  ({ s with warningCount := count, windowHasFocus := false },
   [Action.captureEventScreenshot "tab_switch" sev,
    Action.logEvent "tab_switched" sev] ++
   (if count ≥ s.maxWarnings then [Action.alert] else []))

/-- State and accumulated actions after n consecutive fullscreen-exit
events starting from the constructor state. -/
def runExits : Nat → ProctorState × List Action
  | 0 => (initState, [])
  | n + 1 =>
    let p := runExits n
    let q := fullscreenChangeHandler false p.1
    (q.1, p.2 ++ q.2)

/-- State and accumulated actions after n consecutive tab-switch (document
hidden) events starting from the constructor state. -/
def runTabs : Nat → ProctorState × List Action
  | 0 => (initState, [])
  | n + 1 =>
    let p := runTabs n
    let q := visibilityHiddenHandler p.1
    (q.1, p.2 ++ q.2)

/-- Number of forced-submission invocations in an action trace. -/
def countAutoSubmit (l : List Action) : Nat :=
  l.countP (fun a => decide (a = Action.autoSubmit))

end Proctor

namespace Proctor

/-- Individual results of the pre-flight system checks
(src/unnamed/part_003 performSystemChecks, also src/static/js/proctoring.js).
Each field is true when the check passed: adBlocker is the inverted
detection result (true means no ad blocker detected), devTools likewise. -/
structure SystemChecks where
  html2canvas : Bool
  screenshotTest : Bool
  adBlocker : Bool
  uploadEndpoint : Bool
  devTools : Bool
deriving DecidableEq, Repr

/-- Embedding of the criticalFailures list built by performSystemChecks:
every failed check, the ad-blocker check included, contributes a message. -/
def criticalFailures (c : SystemChecks) : List String :=
  (if !c.html2canvas then ["Screenshot library (html2canvas) failed to load"] else []) ++
  (if !c.screenshotTest then ["Screenshot capture test failed"] else []) ++
  (if !c.uploadEndpoint then ["Upload endpoint is blocked"] else []) ++
  (if !c.adBlocker then ["Ad blocker detected - must be disabled for proctoring to work"] else []) ++
  (if !c.devTools then ["Developer tools are open - must be closed to start exam"] else [])

/-- Observable outcome of performSystemChecks: the returned boolean, the
critical-failure list, and which dialogs were shown. -/
structure SystemCheckOutcome where
  passed : Bool
  failures : List String
  adBlockerAdvisoryShown : Bool
  blockingDialogShown : Bool
deriving DecidableEq, Repr

/-- Embedding of performSystemChecks (src/unnamed/part_003 lines 309-338,
identical logic in src/static/js/proctoring.js lines 316-347): the
dismissible ad-blocker advisory is shown when that check fails, the
blocking error dialog is shown and false is returned whenever the
critical-failure list, which includes the ad-blocker check, is nonempty. -/
def performSystemChecks (c : SystemChecks) : SystemCheckOutcome :=
  let fails := criticalFailures c
  { passed := fails.isEmpty
    failures := fails
    adBlockerAdvisoryShown := !c.adBlocker
    blockingDialogShown := !fails.isEmpty }

/-- Cooldown state of the enhanced event-screenshot capture
(src/unnamed/part_003 constructor): lastEventScreenshot is a map from
event type to the time of the last capture, a missing key reading as 0. -/
structure EventScreenshotState where
  captureOnEvents : Bool
  eventScreenshotCooldown : Nat
  lastEventScreenshot : String → Nat

/-- Embedding of captureEventScreenshot (src/unnamed/part_003 lines
1460-1474): skips when event screenshots are disabled or when the last
capture of the same event type is closer than the cooldown; otherwise it
stamps the per-category map and attempts the capture (returned boolean). -/
def captureEventScreenshot (eventType : String) (now : Nat)
    (s : EventScreenshotState) : EventScreenshotState × Bool :=
  if !s.captureOnEvents then (s, false)
  else
    let lastCapture := s.lastEventScreenshot eventType
    if now - lastCapture < s.eventScreenshotCooldown then (s, false)
    else
      ({ s with lastEventScreenshot :=
          fun t => if t = eventType then now else s.lastEventScreenshot t },
       true)

end Proctor

namespace ProctoringJS

/-- Cooldown state of the event-screenshot capture in
src/static/js/proctoring.js: one shared timestamp for all event types. -/
structure EventScreenshotState where
  captureOnEvents : Bool
  eventScreenshotCooldown : Nat
  lastEventScreenshotTime : Nat
deriving DecidableEq, Repr

/-- Embedding of captureEventScreenshot (src/static/js/proctoring.js lines
1121-1134): the cooldown compares now against the single shared
lastEventScreenshotTime, regardless of the event type. -/
def captureEventScreenshot (eventType : String) (now : Nat)
    (s : EventScreenshotState) : EventScreenshotState × Bool :=
  if !s.captureOnEvents then (s, false)
  else if now - s.lastEventScreenshotTime < s.eventScreenshotCooldown then (s, false)
  else ({ s with lastEventScreenshotTime := now }, true)

end ProctoringJS

namespace Proctor

/-- Browser timer environment: setInterval allocates fresh identifiers and
keeps the interval active until clearInterval is called with that
identifier. -/
structure TimerEnv where
  nextId : Nat
  active : List Nat
deriving DecidableEq, Repr

/-- Allocation of a periodic interval, returning its identifier. -/
def setIntervalTimer (env : TimerEnv) : TimerEnv × Nat :=
  ({ nextId := env.nextId + 1, active := env.active ++ [env.nextId] }, env.nextId)

/-- Cancellation of an interval by identifier; a no-op when the identifier
is not active. -/
def clearIntervalTimer (env : TimerEnv) (i : Nat) : TimerEnv :=
  { env with active := env.active.filter (fun j => j ≠ i) }

/-- A camera media track; stop() moves it to the stopped state and is
idempotent. -/
structure MediaTrack where
  stopped : Bool
deriving DecidableEq, Repr

/-- Embedding of track.stop(). -/
def stopTrack (t : MediaTrack) : MediaTrack := { t with stopped := true }

/-- Resources of the enhanced proctoring session that cleanup touches
(src/unnamed/part_003): the two stored interval identifiers, the camera
stream, and the fullscreen state. The devtools poll interval has no field
here because the source discards the identifier returned by setInterval in
startDevToolsMonitoring. -/
structure SessionResources where
  streamMonitorTimer : Option Nat
  snapshotTimer : Option Nat
  videoStream : Option (List MediaTrack)
  fullscreenActive : Bool
deriving DecidableEq, Repr

/-- Session resources right after camera acquisition and fullscreen entry:
no timers stored yet, one live track, fullscreen active. -/
def initResources : SessionResources :=
  { streamMonitorTimer := none
    snapshotTimer := none
    videoStream := some [{ stopped := false }]
    fullscreenActive := true }

/-- Embedding of startDevToolsMonitoring (src/unnamed/part_003 lines
627-651): a 5-second poll interval is started and its identifier is
discarded, so nothing can ever clear it. -/
def startDevToolsMonitoring (env : TimerEnv) : TimerEnv :=
  (setIntervalTimer env).1

/-- Embedding of startCameraMonitoring (lines 656-691): the 2-second
stream poll interval is stored in streamMonitorTimer. -/
def startCameraMonitoring (env : TimerEnv) (s : SessionResources) :
    TimerEnv × SessionResources :=
  let p := setIntervalTimer env
  (p.1, { s with streamMonitorTimer := some p.2 })

/-- Embedding of startSnapshotTimer (lines 1662-1671): the periodic
snapshot interval is stored in snapshotTimer. -/
def startSnapshotTimer (env : TimerEnv) (s : SessionResources) :
    TimerEnv × SessionResources :=
  let p := setIntervalTimer env
  (p.1, { s with snapshotTimer := some p.2 })

/-- Timer wiring of initialize() (lines 497-560): devtools monitoring,
then camera monitoring, then the snapshot timer. -/
def initializeTimers : TimerEnv × SessionResources :=
  let env1 := startDevToolsMonitoring { nextId := 0, active := [] }
  let p := startCameraMonitoring env1 initResources
  startSnapshotTimer p.1 p.2

/-- Embedding of cleanup (src/unnamed/part_003 lines 1758-1777): clears
the stream-monitor and snapshot intervals when their identifiers are
stored, stops every track of the camera stream, and exits fullscreen when
active. It has no identifier for the devtools poll interval and therefore
cannot clear it. -/
def cleanup (env : TimerEnv) (s : SessionResources) :
    TimerEnv × SessionResources :=
  let env1 := match s.streamMonitorTimer with
    | some i => clearIntervalTimer env i
    | none => env
  let env2 := match s.snapshotTimer with
    | some i => clearIntervalTimer env1 i
    | none => env1
  (env2,
   { s with videoStream := s.videoStream.map (fun ts => ts.map stopTrack)
            fullscreenActive := false })

/-- Timed observable steps of the disqualification and forced-submission
sequence; times are milliseconds from the start of the sequence. -/
inductive DsqAction where
  | logEvent (name : String) (sev : Severity)
  | alert
  | disablePointerEvents
  | dimBody
  | submitForm (method : String) (url : String) (fields : List (String × String))
  | scheduleFallbackNavigate (delayMs : Nat) (url : String)
  | navigate (url : String)
deriving DecidableEq, Repr

/-- Submission endpoint built by autoSubmitTestDisqualified. -/
def submitUrl (attemptId : String) : String :=
  "/attempt/" ++ attemptId ++ "/submit/"

/-- Reason value carried by the fallback GET query string. -/
def disqualificationReasonParam (exitCount : Nat) : String :=
  "fullscreen_exits_" ++ Nat.repr exitCount

/-- Fallback GET URL of autoSubmitTestDisqualified. -/
def fallbackSubmitUrl (attemptId : String) (exitCount : Nat) : String :=
  submitUrl attemptId ++ "?disqualified=true&reason=" ++
    disqualificationReasonParam exitCount

/-- Embedding of autoSubmitTestDisqualified (src/unnamed/part_003 lines
1093-1148): log the critical event, sleep 1000 ms, then build and submit
the POST form and arm the 3000 ms fallback GET navigation; if building or
submitting the form throws, navigate to the fallback GET URL directly. -/
def autoSubmitTestDisqualified (attemptId csrfToken : String)
    (exitCount : Nat) (postThrows : Bool) : List (Nat × DsqAction) :=
  (0, DsqAction.logEvent "exam_disqualified" Severity.critical) ::
  (if postThrows then
    [(1000, DsqAction.navigate (fallbackSubmitUrl attemptId exitCount))]
  else
    [(1000, DsqAction.submitForm "POST" (submitUrl attemptId)
        [("csrfmiddlewaretoken", csrfToken),
         ("disqualified", "true"),
         ("disqualification_reason",
          "Excessive fullscreen exits (" ++ Nat.repr exitCount ++ " times)")]),
     (1000, DsqAction.scheduleFallbackNavigate 3000
        (fallbackSubmitUrl attemptId exitCount))])

/-- Disqualification branch of fullscreenChangeHandler (lines 990-1005):
alert, freeze pointer interaction, dim the page, then run the forced
submission. -/
def disqualificationSequence (attemptId csrfToken : String)
    (exitCount : Nat) (postThrows : Bool) : List (Nat × DsqAction) :=
  (0, DsqAction.alert) :: (0, DsqAction.disablePointerEvents) ::
  (0, DsqAction.dimBody) ::
  autoSubmitTestDisqualified attemptId csrfToken exitCount postThrows

/-- Actions that issue a submission request (the POST form submission or a
GET navigation to the submit endpoint). -/
def isSubmissionRequest : DsqAction → Bool
  | DsqAction.submitForm _ _ _ => true
  | DsqAction.navigate _ => true
  | _ => false

/-- Track liveness states of a camera video track. -/
inductive TrackReadyState where
  | live
  | ended
deriving DecidableEq, BEq, Repr

/-- Camera video track as observed by the stream monitor. -/
structure VideoTrack where
  readyState : TrackReadyState
  enabled : Bool
deriving DecidableEq, Repr

/-- Camera stream state sampled by one poll cycle. -/
structure CameraPollState where
  videoStream : Option (List VideoTrack)
deriving DecidableEq, Repr

/-- Observable side effects of the camera-disabled path. -/
inductive CamAction where
  | logCritical (name : String)
  | showWarningOverlay
deriving DecidableEq, Repr

/-- Warning flag owned by handleCameraDisabled. -/
structure CameraWarnState where
  cameraDisabledWarningShown : Bool
deriving DecidableEq, Repr

/-- Detection condition of startCameraMonitoring (lines 656-680): the
camera counts as disabled when the stream is absent, has no video track,
the first track has readyState ended, or the first track is not enabled. -/
def cameraDisabledDetected (c : CameraPollState) : Bool :=
  match c.videoStream with
  | none => true
  | some tracks =>
    match tracks.head? with
    | none => true
    | some t => t.readyState == TrackReadyState.ended || !t.enabled

/-- Embedding of handleCameraDisabled (src/unnamed/part_003 lines 696-712,
identical in src/static/js/proctoring.js lines 728-746): returns
immediately when the warning was already shown; otherwise sets the flag,
logs the critical event, and shows the warning overlay. -/
def handleCameraDisabled (s : CameraWarnState) :
    CameraWarnState × List CamAction :=
  if s.cameraDisabledWarningShown then (s, [])
  else ({ cameraDisabledWarningShown := true },
        [CamAction.logCritical "camera_disabled", CamAction.showWarningOverlay])

/-- One cycle of the stream-monitor poll: invoke handleCameraDisabled when
the sampled stream state counts as disabled. The track ended event is the
same call and is covered by the same idempotence. -/
def streamMonitorTick (c : CameraPollState) (s : CameraWarnState) :
    CameraWarnState × List CamAction :=
  if cameraDisabledDetected c then handleCameraDisabled s else (s, [])

/-- Warning state and accumulated actions over a sequence of poll
samples. -/
def runCameraPolls : List CameraPollState → CameraWarnState →
    CameraWarnState × List CamAction
  | [], s => (s, [])
  | c :: cs, s =>
    let p := streamMonitorTick c s
    let q := runCameraPolls cs p.1
    (q.1, p.2 ++ q.2)

/-- Away time in whole seconds as computed by the focus and visibility
return handlers: Math.round of the millisecond difference divided by 1000,
for a monotone clock. -/
def awayTimeSeconds (windowBlurTime now : Nat) : Nat :=
  (2 * (now - windowBlurTime) + 1000) / 2000

/-- Logged record of a window focus return. -/
structure FocusLogRecord where
  name : String
  awaySeconds : Nat
  severity : Severity
deriving DecidableEq, Repr

/-- Embedding of the window focus handler log (src/unnamed/part_003 lines
938-952; the visibilitychange return branch at lines 907-921 builds the
same payload under the name tab_returned): severity is warning when the
away time exceeds 30 seconds and info otherwise. -/
def windowFocusReturnedLog (windowBlurTime now : Nat) : FocusLogRecord :=
  let away := awayTimeSeconds windowBlurTime now
  { name := "window_focus_returned"
    awaySeconds := away
    severity := if away > 30 then Severity.warning else Severity.info }

/-- Embedding of attemptFullscreen inside restoreFullscreenWithRetry
(src/unnamed/part_003 lines 1040-1072): increments the retry counter and
asks the browser to re-enter fullscreen; outcome gives the result of the
k-th request. -/
def attemptFullscreen (outcome : Nat → Bool) (attempts : Nat) : Nat × Bool :=
  (attempts + 1, outcome (attempts + 1))

/-- While-loop of restoreFullscreenWithRetry (lines 1073-1078): while not
successful and attempts < maxRetries, sleep 500 * attempts milliseconds
and try again. The fuel argument bounds the recursion and never runs out
when it starts at maxRetries, because attempts grows by one per
iteration. Returns the final attempts counter, the success flag, and the
list of backoff delays slept between attempts. -/
def restoreRetryLoop (outcome : Nat → Bool) (maxRetries : Nat) :
    Nat → Nat → Bool → Nat × Bool × List Nat
  | 0, attempts, success => (attempts, success, [])
  | fuel + 1, attempts, success =>
    if !success && decide (attempts < maxRetries) then
      let d := 500 * attempts
      let p := attemptFullscreen outcome attempts
      let q := restoreRetryLoop outcome maxRetries fuel p.1 p.2
      (q.1, q.2.1, d :: q.2.2)
    else (attempts, success, [])

/-- Embedding of restoreFullscreenWithRetry (lines 1040-1088): one
immediate attempt (after the fixed 300 ms settle delay, which is not a
backoff delay), then the retry loop. -/
def restoreFullscreenWithRetry (outcome : Nat → Bool) (maxRetries : Nat) :
    Nat × Bool × List Nat :=
  let p := attemptFullscreen outcome 0
  restoreRetryLoop outcome maxRetries maxRetries p.1 p.2

end Proctor

namespace Viewer

/-- Hotspot region rectangle as configured for the image viewers. -/
structure Hotspot where
  x : Int
  y : Int
  width : Int
  height : Int
deriving DecidableEq, Repr

/-- Point-in-rectangle test used by all three viewer variants: both
comparisons on each axis are non-strict, so the boundary is inclusive. -/
def hotspotContains (h : Hotspot) (px py : Int) : Bool :=
  px ≥ h.x && px ≤ h.x + h.width && py ≥ h.y && py ≤ h.y + h.height

/-- Embedding of checkHotspotHit (src/unnamed/part_000 lines 225-235,
src/unnamed/part_001 lines 596-606) and checkHotspot (src/unnamed/part_002
lines 196-207): scan the configured regions in array order and return the
first whose rectangle contains the point, or null when none does. -/
def checkHotspotHit (regions : List Hotspot) (px py : Int) : Option Hotspot :=
  match regions with
  | [] => none
  | h :: rest =>
    if hotspotContains h px py then some h else checkHotspotHit rest px py

end Viewer

namespace Proctor

/-- Terminal state reached after the third fullscreen exit. -/
def dqFinalState : ProctorState :=
  { initState with fullscreenExitCount := 3, isDisqualified := true }

/-- A state whose session is already disqualified. -/
def dqState : ProctorState := { initState with isDisqualified := true }

lemma fullscreenChangeHandler_disqualified (s : ProctorState) (ev : Bool)
    (h : s.isDisqualified = true) : fullscreenChangeHandler ev s = (s, []) := by
  simp [fullscreenChangeHandler, h]

lemma runExits_ge_three (n : Nat) (h : 3 ≤ n) :
    (runExits n).1 = dqFinalState ∧ countAutoSubmit (runExits n).2 = 1 := by
  induction n, h using Nat.le_induction with
  | base => decide
  | succ n hn ih =>
    have hstep := fullscreenChangeHandler_disqualified (runExits n).1 false
      (by rw [ih.1]; rfl)
    simp only [runExits, hstep, List.append_nil]
    exact ih

lemma runExits_lt_three (n : Nat) (h : n < 3) :
    (runExits n).1 = { initState with fullscreenExitCount := n } ∧
    countAutoSubmit (runExits n).2 = 0 := by
  interval_cases n <;> decide

lemma visibilityHiddenHandler_effects (s : ProctorState) :
    (visibilityHiddenHandler s).1.isDisqualified = s.isDisqualified ∧
    countAutoSubmit (visibilityHiddenHandler s).2 = 0 := by
  unfold visibilityHiddenHandler countAutoSubmit
  rcases Nat.lt_or_ge (s.warningCount + 1) s.maxWarnings with h | h
  · simp [Nat.not_le.mpr h]
  · simp [h]

lemma runTabs_effects (n : Nat) :
    (runTabs n).1.isDisqualified = false ∧ countAutoSubmit (runTabs n).2 = 0 := by
  induction n with
  | zero => decide
  | succ n ih =>
    have h := visibilityHiddenHandler_effects (runTabs n).1
    simp only [runTabs, countAutoSubmit] at *
    constructor
    · rw [h.1, ih.1]
    · rw [List.countP_append]
      omega

end Proctor

/-- C1: in the enhanced tracker (src/unnamed/part_003), the fullscreen-exit
category with maxFullscreenExits = 3 reaches the disqualified state exactly
at the third qualifying event: after n exits the disqualified flag equals
(3 ≤ n), no forced submission is attempted before the third exit, and the
third exit itself emits the disqualification sequence. The universal form
of the claim fails for the tab-switch category, which has a configured
maximum (maxWarnings = 3) but never sets the disqualified flag. -/
theorem fullscreen_exit_disqualifies_at_threshold :
    (∀ n, (Proctor.runExits n).1.isDisqualified = decide (3 ≤ n)) ∧
    Proctor.countAutoSubmit (Proctor.runExits 2).2 = 0 ∧
    Proctor.Action.autoSubmit ∈
      (Proctor.fullscreenChangeHandler false (Proctor.runExits 2).1).2 ∧
    (∀ n, (Proctor.runTabs n).1.isDisqualified = false) := by
  refine ⟨fun n => ?_, by decide, by decide, fun n => (Proctor.runTabs_effects n).1⟩
  rcases Nat.lt_or_ge n 3 with h | h
  · rw [(Proctor.runExits_lt_three n h).1]
    simp [Nat.not_le.mpr h]
    rfl
  · rw [(Proctor.runExits_ge_three n h).1]
    simp [h]
    rfl

/-- C1 counterexample: the tab-switch category has a configured maximum
(maxWarnings = 3), yet its third qualifying event leaves the disqualified
flag false and triggers no forced submission, refuting the claim that the
N-th event of every category with a configured maximum disqualifies. -/
theorem tab_switch_threshold_does_not_disqualify :
    Proctor.initState.maxWarnings = 3 ∧
    (Proctor.runTabs 3).1.warningCount = 3 ∧
    (Proctor.runTabs 3).1.isDisqualified = false ∧
    Proctor.countAutoSubmit (Proctor.runTabs 3).2 = 0 := by decide

/-- C2: the disqualified flag is absorbing. A disqualified session makes
the fullscreen handler a no-op (same state, no actions), the tab-switch
handler preserves the flag, and any run of n ≥ 3 consecutive fullscreen
exits performs exactly one forced-submission attempt. -/
theorem disqualified_state_absorbing :
    (∀ (s : Proctor.ProctorState) (ev : Bool), s.isDisqualified = true →
       Proctor.fullscreenChangeHandler ev s = (s, [])) ∧
    (∀ s : Proctor.ProctorState, s.isDisqualified = true →
       (Proctor.visibilityHiddenHandler s).1.isDisqualified = true) ∧
    (∀ n, 3 ≤ n → Proctor.countAutoSubmit (Proctor.runExits n).2 = 1) :=
  ⟨Proctor.fullscreenChangeHandler_disqualified,
   fun s h => (Proctor.visibilityHiddenHandler_effects s).1.trans h,
   fun n h => (Proctor.runExits_ge_three n h).2⟩

/-- C2 witness: a concrete disqualified state is left untouched by a
further fullscreen-exit event, and five consecutive exits from the fresh
session yield exactly one forced-submission attempt. -/
theorem disqualified_state_absorbing_witness :
    Proctor.fullscreenChangeHandler false Proctor.dqState = (Proctor.dqState, []) ∧
    (Proctor.visibilityHiddenHandler Proctor.dqState).1.isDisqualified = true ∧
    Proctor.countAutoSubmit (Proctor.runExits 5).2 = 1 :=
  ⟨disqualified_state_absorbing.1 Proctor.dqState false rfl,
   disqualified_state_absorbing.2.1 Proctor.dqState rfl,
   disqualified_state_absorbing.2.2 5 (by decide)⟩

/-- C3 counterexample: with every other check passing and only the
ad-blocker heuristic failing, performSystemChecks returns false and shows
the blocking dialog, so ad-blocker detection alone does block session
start, contrary to the claim. -/
theorem adblocker_only_failure_blocks_start :
    (Proctor.performSystemChecks ⟨true, true, false, true, true⟩).passed = false ∧
    (Proctor.performSystemChecks ⟨true, true, false, true, true⟩).blockingDialogShown = true := by
  decide

/-- C3 amended: when the ad-blocker heuristic is the only failing
pre-flight check, the dismissible advisory is shown, but the check is also
counted as a critical failure: the aggregate check returns false with the
ad-blocker message as the only listed failure, and the session does not
proceed. -/
theorem adblocker_gates_system_checks (c : Proctor.SystemChecks)
    (h1 : c.html2canvas = true) (h2 : c.screenshotTest = true)
    (h3 : c.uploadEndpoint = true) (h4 : c.devTools = true)
    (h5 : c.adBlocker = false) :
    (Proctor.performSystemChecks c).passed = false ∧
    (Proctor.performSystemChecks c).adBlockerAdvisoryShown = true ∧
    (Proctor.performSystemChecks c).blockingDialogShown = true ∧
    (Proctor.performSystemChecks c).failures =
      ["Ad blocker detected - must be disabled for proctoring to work"] := by
  rcases c with ⟨a, b, d, e, f⟩
  simp only at h1 h2 h3 h4 h5
  subst h1 h2 h3 h4 h5
  decide

/-- C3 amended witness: the concrete check vector with only the ad-blocker
heuristic failing. -/
theorem adblocker_gates_system_checks_witness :
    (Proctor.performSystemChecks ⟨true, true, false, true, true⟩).passed = false ∧
    (Proctor.performSystemChecks ⟨true, true, false, true, true⟩).adBlockerAdvisoryShown = true ∧
    (Proctor.performSystemChecks ⟨true, true, false, true, true⟩).blockingDialogShown = true ∧
    (Proctor.performSystemChecks ⟨true, true, false, true, true⟩).failures =
      ["Ad blocker detected - must be disabled for proctoring to work"] :=
  adblocker_gates_system_checks ⟨true, true, false, true, true⟩ rfl rfl rfl rfl rfl

/-- C4 counterexample: in src/static/js/proctoring.js the cooldown state
is one shared timestamp, so a trigger of a different category IS
suppressed by a recent capture of another category: a fullscreen-exit capture
at time 5000 makes a tab-switch trigger at time 6000 (1000 ms later, under
the 2000 ms cooldown) produce no upload. -/
theorem cross_category_trigger_suppressed :
    (ProctoringJS.captureEventScreenshot "fullscreen_exit" 5000 ⟨true, 2000, 0⟩).2 = true ∧
    (ProctoringJS.captureEventScreenshot "tab_switch" 6000
      (ProctoringJS.captureEventScreenshot "fullscreen_exit" 5000 ⟨true, 2000, 0⟩).1).2 = false := by
  decide

/-- C4 amended: in the enhanced implementation (src/unnamed/part_003) the
cooldown is per category exactly as claimed: after a capture of category c
at time t1, a second trigger of c within the cooldown produces no upload,
a second trigger of c spaced at least the cooldown produces one, and the
decision for a different category d is unchanged by the capture of c; in
src/static/js/proctoring.js, however, the cooldown is shared across
categories, so a different category triggered within 2000 ms of any
capture is suppressed. -/
theorem per_category_cooldown (s : Proctor.EventScreenshotState)
    (c d : String) (t1 t2 : Nat)
    (h1 : s.captureOnEvents = true)
    (h2 : s.eventScreenshotCooldown ≤ t1 - s.lastEventScreenshot c) :
    (Proctor.captureEventScreenshot c t1 s).2 = true ∧
    (t2 - t1 < s.eventScreenshotCooldown →
      (Proctor.captureEventScreenshot c t2
        (Proctor.captureEventScreenshot c t1 s).1).2 = false) ∧
    (s.eventScreenshotCooldown ≤ t2 - t1 →
      (Proctor.captureEventScreenshot c t2
        (Proctor.captureEventScreenshot c t1 s).1).2 = true) ∧
    (d ≠ c →
      (Proctor.captureEventScreenshot d t2
        (Proctor.captureEventScreenshot c t1 s).1).2 =
      (Proctor.captureEventScreenshot d t2 s).2) := by
  have hnot : ¬ (t1 - s.lastEventScreenshot c < s.eventScreenshotCooldown) :=
    Nat.not_lt.mpr h2
  refine ⟨?_, ?_, ?_, ?_⟩
  · simp [Proctor.captureEventScreenshot, h1, hnot]
  · intro hlt
    simp [Proctor.captureEventScreenshot, h1, hnot, hlt]
  · intro hge
    simp [Proctor.captureEventScreenshot, h1, hnot, Nat.not_lt.mpr hge]
  · intro hne
    rcases Nat.lt_or_ge (t2 - s.lastEventScreenshot d) s.eventScreenshotCooldown with hd | hd
    · simp [Proctor.captureEventScreenshot, h1, hnot, hne, hd]
    · simp [Proctor.captureEventScreenshot, h1, hnot, hne, Nat.not_lt.mpr hd]

/-- C4 amended witness: concrete per-category behavior of the enhanced
implementation: a fullscreen-exit capture at time 5000 succeeds and does
not change the decision for a tab-switch trigger at time 6000. -/
theorem per_category_cooldown_witness :
    (Proctor.captureEventScreenshot "fullscreen_exit" 5000 ⟨true, 2000, fun _ => 0⟩).2 = true ∧
    (Proctor.captureEventScreenshot "tab_switch" 6000
      (Proctor.captureEventScreenshot "fullscreen_exit" 5000 ⟨true, 2000, fun _ => 0⟩).1).2 =
    (Proctor.captureEventScreenshot "tab_switch" 6000 ⟨true, 2000, fun _ => 0⟩).2 := by
  have h := per_category_cooldown ⟨true, 2000, fun _ => 0⟩ "fullscreen_exit" "tab_switch"
    5000 6000 rfl (by decide)
  exact ⟨h.1, h.2.2.2 (by decide)⟩

/-- C5: cleanup is idempotent, stops the camera tracks and exits
fullscreen, but it does NOT leave the session without active interval
timers: in the initialization wiring, the devtools poll interval
(identifier 0) survives cleanup, because startDevToolsMonitoring discards
the identifier returned by setInterval and cleanup has nothing to clear it
with. -/
theorem cleanup_leaves_devtools_interval_active :
    (Proctor.cleanup Proctor.initializeTimers.1 Proctor.initializeTimers.2).1.active = [0] ∧
    (Proctor.cleanup
      (Proctor.cleanup Proctor.initializeTimers.1 Proctor.initializeTimers.2).1
      (Proctor.cleanup Proctor.initializeTimers.1 Proctor.initializeTimers.2).2 =
      Proctor.cleanup Proctor.initializeTimers.1 Proctor.initializeTimers.2) ∧
    (Proctor.cleanup Proctor.initializeTimers.1 Proctor.initializeTimers.2).2.videoStream =
      some [{ stopped := true }] ∧
    (Proctor.cleanup Proctor.initializeTimers.1 Proctor.initializeTimers.2).2.fullscreenActive =
      false := by
  decide

/-- C6: the disqualification sequence freezes pointer interaction before
the forced-submission attempt, issues a submission request (POST form or,
when form submission throws, GET navigation) at 1000 ms, within the
3-second bound, and in the non-throwing run arms a 3000 ms fallback
navigation to a GET URL whose query string carries the disqualification
reason. -/
theorem disqualification_sequence_forces_submission :
    ∀ (attemptId csrfToken : String) (exitCount : Nat) (postThrows : Bool),
      (∃ i j, i < j ∧
        (Proctor.disqualificationSequence attemptId csrfToken exitCount postThrows).get? i =
          some (0, Proctor.DsqAction.disablePointerEvents) ∧
        ∃ t a,
          (Proctor.disqualificationSequence attemptId csrfToken exitCount postThrows).get? j =
            some (t, a) ∧
          Proctor.isSubmissionRequest a = true ∧ t ≤ 3000) ∧
      ((1000, Proctor.DsqAction.scheduleFallbackNavigate 3000
          (Proctor.fallbackSubmitUrl attemptId exitCount)) ∈
        Proctor.disqualificationSequence attemptId csrfToken exitCount false) ∧
      (∃ reasonValue, Proctor.fallbackSubmitUrl attemptId exitCount =
        Proctor.submitUrl attemptId ++ "?disqualified=true&reason=" ++ reasonValue) := by
  intro attemptId csrfToken exitCount postThrows
  refine ⟨?_, ?_, ⟨Proctor.disqualificationReasonParam exitCount, rfl⟩⟩
  · cases postThrows
    · exact ⟨1, 4, by omega, rfl,
        1000, Proctor.DsqAction.submitForm "POST" (Proctor.submitUrl attemptId)
          [("csrfmiddlewaretoken", csrfToken), ("disqualified", "true"),
           ("disqualification_reason",
            "Excessive fullscreen exits (" ++ Nat.repr exitCount ++ " times)")],
        rfl, rfl, by omega⟩
    · exact ⟨1, 4, by omega, rfl,
        1000, Proctor.DsqAction.navigate (Proctor.fallbackSubmitUrl attemptId exitCount),
        rfl, rfl, by omega⟩
  · simp [Proctor.disqualificationSequence, Proctor.autoSubmitTestDisqualified]

lemma runCameraPolls_shown (cs : List Proctor.CameraPollState) :
    Proctor.runCameraPolls cs ⟨true⟩ = (⟨true⟩, []) := by
  induction cs with
  | nil => rfl
  | cons c cs ih =>
    cases h : Proctor.cameraDisabledDetected c <;>
      simp [Proctor.runCameraPolls, Proctor.streamMonitorTick,
        Proctor.handleCameraDisabled, h, ih]

lemma runCameraPolls_fresh (cs : List Proctor.CameraPollState) :
    Proctor.runCameraPolls cs ⟨false⟩ =
      (⟨cs.any Proctor.cameraDisabledDetected⟩,
       if cs.any Proctor.cameraDisabledDetected then
         [Proctor.CamAction.logCritical "camera_disabled",
          Proctor.CamAction.showWarningOverlay]
       else []) := by
  induction cs with
  | nil => rfl
  | cons c cs ih =>
    cases h : Proctor.cameraDisabledDetected c
    · simp [Proctor.runCameraPolls, Proctor.streamMonitorTick, h, ih]
    · simp [Proctor.runCameraPolls, Proctor.streamMonitorTick,
        Proctor.handleCameraDisabled, h, runCameraPolls_shown cs]

/-- C7: over any sequence of poll samples starting with the warning flag
clear, the camera-disabled critical log and warning overlay are emitted
exactly once when some sample detects the camera as disabled and never
otherwise; the flag records whether a detection happened, and once the
flag is set a whole run of further samples changes nothing and emits
nothing. -/
theorem camera_disabled_warning_shown_once :
    ∀ cs : List Proctor.CameraPollState,
      (Proctor.runCameraPolls cs ⟨false⟩).2 =
        (if cs.any Proctor.cameraDisabledDetected then
          [Proctor.CamAction.logCritical "camera_disabled",
           Proctor.CamAction.showWarningOverlay]
         else []) ∧
      (Proctor.runCameraPolls cs ⟨false⟩).1.cameraDisabledWarningShown =
        cs.any Proctor.cameraDisabledDetected ∧
      Proctor.runCameraPolls cs ⟨true⟩ = (⟨true⟩, []) := by
  intro cs
  refine ⟨?_, ?_, runCameraPolls_shown cs⟩ <;> rw [runCameraPolls_fresh]

/-- C8: the away-time log classifies severity as warning exactly when the
rounded away time exceeds 30 seconds: 45 seconds away is logged as
warning, 10 seconds as info, and in general the severity is warning if and
only if the raw away time is at least 30500 ms (which rounds to 31 s). -/
theorem away_time_severity_classification :
    ∀ windowBlurTime : Nat,
      (Proctor.windowFocusReturnedLog windowBlurTime (windowBlurTime + 45000)).severity =
        Proctor.Severity.warning ∧
      (Proctor.windowFocusReturnedLog windowBlurTime (windowBlurTime + 45000)).awaySeconds = 45 ∧
      (Proctor.windowFocusReturnedLog windowBlurTime (windowBlurTime + 10000)).severity =
        Proctor.Severity.info ∧
      (Proctor.windowFocusReturnedLog windowBlurTime (windowBlurTime + 10000)).awaySeconds = 10 ∧
      ∀ d, ((Proctor.windowFocusReturnedLog windowBlurTime (windowBlurTime + d)).severity =
            Proctor.Severity.warning ↔ 30500 ≤ d) := by
  intro b
  have hb : ∀ x : Nat, b + x - b = x := fun x => by omega
  refine ⟨?_, ?_, ?_, ?_, ?_⟩
  · simp [Proctor.windowFocusReturnedLog, Proctor.awayTimeSeconds, hb]
  · simp [Proctor.windowFocusReturnedLog, Proctor.awayTimeSeconds, hb]
  · simp [Proctor.windowFocusReturnedLog, Proctor.awayTimeSeconds, hb]
  · simp [Proctor.windowFocusReturnedLog, Proctor.awayTimeSeconds, hb]
  · intro d
    simp only [Proctor.windowFocusReturnedLog, Proctor.awayTimeSeconds, hb]
    rcases Nat.lt_or_ge 30 ((2 * d + 1000) / 2000) with h | h
    · simp only [if_pos h]
      constructor
      · intro _; omega
      · intro _; trivial
    · simp only [if_neg (Nat.not_lt.mpr h)]
      constructor
      · intro hcon; exact absurd hcon (by decide)
      · intro hd; exact absurd h (by omega)

/-- C9 counterexample: with every restoration attempt failing and the
configured maxFullscreenRetries = 5, the backoff delays slept between
attempts are 500, 1000, 1500, 2000 ms, which grow by a constant step of
500 ms; no constant ratio greater than one relates consecutive delays, so
the backoff is not exponentially increasing. -/
theorem backoff_delays_not_exponential :
    (Proctor.restoreFullscreenWithRetry (fun _ => false) 5).2.2 = [500, 1000, 1500, 2000] ∧
    ¬ ∃ num den : Nat, den < num ∧
        List.Chain' (fun a b => b * den = a * num)
          (Proctor.restoreFullscreenWithRetry (fun _ => false) 5).2.2 := by
  have hd : (Proctor.restoreFullscreenWithRetry (fun _ => false) 5).2.2 =
      [500, 1000, 1500, 2000] := by decide
  refine ⟨hd, ?_⟩
  rintro ⟨num, den, hlt, hchain⟩
  rw [hd] at hchain
  simp only [List.chain'_cons, List.chain'_singleton, and_true] at hchain
  omega

/-- C9 amended: after a sub-threshold fullscreen exit, the restoration
retry loop with the configured maxFullscreenRetries = 5 terminates after
at most 5 attempts for every pattern of attempt outcomes, and the backoff
delays between attempts increase linearly: the i-th delay slept is
500 * (i + 1) milliseconds. -/
theorem fullscreen_retry_bounded_linear_backoff :
    ∀ outcome : Nat → Bool,
      (Proctor.restoreFullscreenWithRetry outcome 5).1 ≤ 5 ∧
      (Proctor.restoreFullscreenWithRetry outcome 5).2.2 =
        (List.range (Proctor.restoreFullscreenWithRetry outcome 5).2.2.length).map
          (fun k => 500 * (k + 1)) := by
  intro o
  cases h1 : o 1 <;> cases h2 : o 2 <;> cases h3 : o 3 <;> cases h4 : o 4 <;>
    cases h5 : o 5 <;>
    simp [Proctor.restoreFullscreenWithRetry, Proctor.restoreRetryLoop,
      Proctor.attemptFullscreen, h1, h2, h3, h4, h5, List.range_succ]

/-- C10: the hotspot hit test returns the first region in configured array
order whose closed axis-aligned rectangle contains the point, it returns
null exactly when no region contains the point, and containment is the
boundary-inclusive rectangle membership on both axes. -/
theorem hotspot_hit_first_containing_region :
    ∀ (regions : List Viewer.Hotspot) (px py : Int),
      Viewer.checkHotspotHit regions px py =
        regions.find? (fun h => Viewer.hotspotContains h px py) ∧
      (Viewer.checkHotspotHit regions px py = none ↔
        ∀ h ∈ regions, Viewer.hotspotContains h px py = false) ∧
      ∀ h : Viewer.Hotspot, Viewer.hotspotContains h px py = true ↔
        (h.x ≤ px ∧ px ≤ h.x + h.width ∧ h.y ≤ py ∧ py ≤ h.y + h.height) := by
  intro regions px py
  have hfind : ∀ rs : List Viewer.Hotspot, Viewer.checkHotspotHit rs px py =
      rs.find? (fun h => Viewer.hotspotContains h px py) := by
    intro rs
    induction rs with
    | nil => rfl
    | cons h t ih =>
      cases hc : Viewer.hotspotContains h px py <;>
        simp [Viewer.checkHotspotHit, List.find?, hc, ih]
  refine ⟨hfind regions, ?_, ?_⟩
  · rw [hfind]
    simp [List.find?_eq_none]
  · intro h
    simp [Viewer.hotspotContains, ge_iff_le, and_assoc]
